import Mathlib

/-!
Verification of the Pachyderm storage backend for label-studio
(`io_storages/pachyderm/models.py` and `io_storages/pachyderm/mount_server.py`).

The Python code is shallowly embedded: the process-wide mutable dict
`_mounts` becomes an explicit association list threaded through the
operations, remote HTTP calls become recorded events plus boolean success
parameters supplied by the environment, physical mount-point presence and
the readiness probe become time-indexed oracles (`Nat → Bool`), and Python
exceptions become explicit error values.
-/

set_option autoImplicit false

namespace Pachyderm

/-- Python exceptions raised by the embedded code. -/
inductive PyError where
  /-- `TimeoutError` -/
  | timeoutError (msg : String)
  /-- `KeyError` from `del _mounts[self.pk]` on an absent key -/
  | keyError
  /-- `requests` exception from `raise_for_status()` on a failed remote call -/
  | httpError
  /-- `RuntimeError` -/
  | runtimeError (msg : String)
  /-- `ValueError` -/
  | valueError (msg : String)
  /-- `OSError` from a failed file write -/
  | osError
deriving DecidableEq, Repr

/-- Remote requests issued against the mount-server control plane
(`mount_server.py`).  `mountReq repo branch mode name` is
`PUT /repos/{repo}/{branch}/_mount?name={name}&mode={mode}`;
`unmountReq repo branch name` is
`PUT /repos/{repo}/{branch}/_unmount?name={name}`;
`ensureReady` is a `safe_start_mount_server()` call. -/
inductive Event where
  | ensureReady
  | mountReq (repo branch mode name : String)
  | unmountReq (repo branch name : String)
deriving DecidableEq, Repr

/-- `str.partition(sep)` at a single-character separator, on the character
list: returns the part before the first occurrence and the part after it,
or `none` if the separator does not occur. -/
def partitionAt (sep : Char) : List Char → Option (List Char × List Char)
  | [] => none
  | c :: cs =>
    if c = sep then some ([], cs)
    else
      match partitionAt sep cs with
      | some (l, r) => some (c :: l, r)
      | none => none

/-- `split_branch(repository)` (models.py:203):
`repo_name, _, branch = repository.partition("@")`.
When `"@"` is absent, Python's `partition` yields `(repository, "", "")`,
so the branch component is the empty string. -/
def split_branch (repository : String) : String × String :=
  match partitionAt '@' repository.data with
  | some (l, r) => (⟨l⟩, ⟨r⟩)
  | none => (repository, "")

/-- `PachydermMixin.repository_with_branch` (models.py:48):
split, default the branch to `"master"` when empty (`branch or "master"`),
and re-compose `f"{repo_name}@{branch}"`. -/
def repository_with_branch (repository : String) : String :=
  let p := split_branch repository
  let branch := if p.2 = "" then "master" else p.2
  p.1 ++ "@" ++ branch

/-- `PachydermMixin.mount_point` (models.py:44) as a string:
`PFS_DIR / repository_with_branch` with `PFS_DIR = Path("/pfs")`. -/
def mount_point (repository : String) : String :=
  "/pfs/" ++ repository_with_branch repository

/-- The process-wide Mount State Registry `_mounts : Dict[int, str]`
(models.py:31), keyed by the storage configuration's primary key `pk`. -/
abbrev Registry := List (Nat × String)

/-- `_mounts.get(pk, None)`. -/
def Registry.get (r : Registry) (pk : Nat) : Option String :=
  match List.find? (fun p => p.1 = pk) r with
  | some p => some p.2
  | none => none

/-- `_mounts[pk] = v` (dict assignment: overwrites any previous entry). -/
def Registry.set (r : Registry) (pk : Nat) (v : String) : Registry :=
  (pk, v) :: List.filter (fun p => p.1 ≠ pk) r

/-- `del _mounts[pk]` on a present key (the `KeyError` on an absent key is
produced by the caller, see `unmount`). -/
def Registry.del (r : Registry) (pk : Nat) : Registry :=
  List.filter (fun p => p.1 ≠ pk) r

/-- Result of a `mount`/`unmount` call: the outcome (`.ok ()` for a normal
return, `.error e` for a raised exception), the registry afterwards, and
the remote requests issued, in order. -/
structure CallOutcome where
  result : Except PyError Unit
  registry : Registry
  events : List Event
deriving Repr

/-- `PachydermMixin.mount(wait, writable=...)` (models.py:54–75).

`present t` is the time-indexed oracle for `self.is_mounted`
(`os.path.exists(mount_point)`): `present 0` is the check on line 67 and
`present (i+1)` the check in the i-th poll iteration (the code sleeps one
second between successive checks).  The `safe_start_mount_server()` call on
line 56 is recorded as `Event.ensureReady` and assumed to return normally.
Faithful to the source, the unmount of the previously mounted ref on
line 64 passes `name=repository_with_branch` — the *new* ref — while its
positional repo/branch arguments come from the old ref, and
`_mounts[self.pk]` is assigned (line 69) as soon as the mount request is
issued, before the presence poll. -/
def mount (pk : Nat) (repository : String) (writable : Bool) (wait : Nat)
    (reg : Registry) (present : Nat → Bool) : CallOutcome :=
  let rwb := repository_with_branch repository
  let sb := split_branch rwb
  let ev0 : List Event :=
    match reg.get pk with
    | some mounted_repo =>
      if mounted_repo ≠ rwb then
        let msb := split_branch mounted_repo
        [Event.ensureReady, Event.unmountReq msb.1 msb.2 rwb]
      else [Event.ensureReady]
    | none => [Event.ensureReady]
  if present 0 then
    ⟨Except.ok (), reg, ev0⟩
  else
    let mode := if writable then "rw" else "r"
    let reg1 := reg.set pk rwb
    let ev1 := ev0 ++ [Event.mountReq sb.1 sb.2 mode rwb]
    match List.find? (fun i => present (i + 1)) (List.range wait) with
    | some _ => ⟨Except.ok (), reg1, ev1⟩
    | none =>
      ⟨Except.error (PyError.timeoutError ("Could not mount repository: " ++ rwb)),
       reg1, ev1⟩

/-- `PachydermMixin.unmount` (models.py:77–85).

`remoteOk` says whether the `PUT .../_unmount` call returns a 2xx status;
on failure `raise_for_status()` raises before `del _mounts[self.pk]` is
reached, and on success `del` raises `KeyError` when the registry has no
entry for `pk`. -/
def unmount (pk : Nat) (repository : String) (remoteOk : Bool)
    (reg : Registry) : CallOutcome :=
  let rwb := repository_with_branch repository
  let sb := split_branch rwb
  let ev := [Event.ensureReady, Event.unmountReq sb.1 sb.2 rwb]
  if remoteOk then
    match reg.get pk with
    | some _ => ⟨Except.ok (), reg.del pk, ev⟩
    | none => ⟨Except.error PyError.keyError, reg, ev⟩
  else
    ⟨Except.error PyError.httpError, reg, ev⟩

/-- `safe_start_mount_server(wait=30)` (mount_server.py:105–122).

`probeOk n` is the outcome of the n-th `get_repos()` call (`false` means it
raised `RequestException`). The returned `Nat` counts `Popen` spawns of the
helper process. -/
def safe_start_mount_server (wait : Nat) (probeOk : Nat → Bool) :
    Except PyError Unit × Nat :=
  if probeOk 0 then
    (Except.ok (), 0)
  else
    match List.find? (fun i => probeOk (i + 1)) (List.range wait) with
    | some _ => (Except.ok (), 1)
    | none =>
      (Except.error (PyError.timeoutError "Failed to start pachctl mount-server"), 1)

/-- The files visible under `/pfs`, as an association list from absolute
path to file bytes (modelled as a `String`).  The physical mount view
that the import and export storages operate on. -/
abbrev FS := List (String × String)

/-- Read the bytes stored at a path. -/
def FS.read (fs : FS) (key : String) : Option String :=
  match List.find? (fun p => p.1 = key) fs with
  | some p => some p.2
  | none => none

/-- Writing a file (`open` in write mode, then `json.dump`) creates it or
overwrites it in place. -/
def FS.write (fs : FS) (key v : String) : FS :=
  (key, v) :: List.filter (fun p => p.1 ≠ key) fs

/-- A JSON value as produced by `json.load`. -/
inductive Json where
  | obj (fields : List (String × Json))
  | arr (elems : List Json)
  | str (s : String)
  | num (n : Int)
  | bool (b : Bool)
  | null

/-- What opening and JSON-decoding a file's bytes yields:
`decodable j` when the bytes are valid UTF-8 encoding valid JSON,
`invalid` when `open(...).read` raises `UnicodeDecodeError` or `json.load`
raises `JSONDecodeError`. -/
inductive FileContent where
  | decodable (j : Json)
  | invalid

/-- Value returned by `PachydermImportStorage.get_data`: either the
blob-URL descriptor `{DATA_UNDEFINED_NAME: f"{HOSTNAME}/data/pfs/?d={rel}"}`
or the parsed JSON task object. -/
inductive TaskData where
  | blobUrl (url : String)
  | parsed (j : Json)

/-- `Path(key).relative_to(PFS_DIR)` with `PFS_DIR = Path("/pfs")`:
strips the leading `"/pfs/"`; raises `ValueError` when `key` is not under
`/pfs`. -/
def relative_to_pfs (key : String) : Except PyError String :=
  if List.isPrefixOf "/pfs/".data key.data then
    Except.ok (String.mk (List.drop 5 key.data))
  else
    Except.error (PyError.valueError ("... is not in the subpath of /pfs"))

/-- `PachydermImportStorage.get_data(key)` (models.py:123–139).

`use_blob_urls` is the configuration's blob flag; `hostname` stands for
`settings.HOSTNAME`; `content` is what reading and JSON-decoding the file
at `key` yields (consulted only on the non-blob path). -/
def get_data (use_blob_urls : Bool) (hostname key : String)
    (content : FileContent) : Except PyError TaskData :=
  if use_blob_urls then
    match relative_to_pfs key with
    | Except.ok rel => Except.ok (TaskData.blobUrl (hostname ++ "/data/pfs/?d=" ++ rel))
    | Except.error e => Except.error e
  else
    match content with
    | FileContent.invalid =>
      Except.error (PyError.valueError ("Can not import JSON-formatted tasks from " ++ key))
    | FileContent.decodable j =>
      match j with
      | Json.obj fields => Except.ok (TaskData.parsed (Json.obj fields))
      | _ =>
        Except.error (PyError.valueError ("Error on key " ++ key ++
          ": your JSON file must be a dictionary with one task."))

/-- `PachydermImportStorage.iterkeys` (models.py:117–121): enumerate, as
strings, every file under the configuration's mount point
(`self.mount_point.rglob('*')`). -/
def iterkeys (repository : String) (fs : FS) : List String :=
  List.filter (fun k => List.isPrefixOf (mount_point repository ++ "/").data k.data)
    (List.map (fun p => p.1) fs)

/-- Recognizer for mount requests among recorded events. -/
def Event.isMountReq : Event → Bool
  | Event.mountReq _ _ _ _ => true
  | _ => false

/-- Recognizer for unmount requests among recorded events. -/
def Event.isUnmountReq : Event → Bool
  | Event.unmountReq _ _ _ => true
  | _ => false

/-- Recognizer for JSON objects (Python `isinstance(value, dict)`). -/
def Json.isObj : Json → Bool
  | Json.obj _ => true
  | _ => false

/-- Result of `PachydermExportStorage.save_annotation`: the raised
exception if any, the filesystem afterwards, and whether
`PachydermExportStorageLink.create` ran. -/
structure ExportOutcome where
  result : Except PyError Unit
  fs : FS
  linkCreated : Bool
deriving Repr

/-- The storage key `save_annotation` writes to (models.py:167–168):
`os.path.join(mount_point, f"{key}.json")` where `key` identifies the
annotation. -/
def export_key (repository annotationKey : String) : String :=
  mount_point repository ++ "/" ++ annotationKey ++ ".json"

/-- `PachydermExportStorage.save_annotation(annotation)` (models.py:152–175).

`is_mounted` is the physical-presence probe for the mount point;
`writeOk` says whether the file write (`open`/`json.dump`) succeeds;
`annotationKey` is `PachydermExportStorageLink.get_key(annotation)` and
`ser` the serialized annotation bytes (`_get_serialized_data` followed by
`json.dump`, treated as one opaque serialization step). -/
def save_annotation (repository : String) (is_mounted writeOk : Bool)
    (fs : FS) (annotationKey ser : String) : ExportOutcome :=
  if ¬ is_mounted then
    ⟨Except.error (PyError.runtimeError
        ("Output repository " ++ repository_with_branch repository ++ " not mounted")),
     fs, false⟩
  else
    let key := export_key repository annotationKey
    if writeOk then
      ⟨Except.ok (), fs.write key ser, true⟩
    else
      ⟨Except.error PyError.osError, fs, false⟩

/-! ### Helper lemmas -/

theorem partitionAt_append_sep (sep : Char) (l1 l2 : List Char) (h : sep ∉ l1) :
    partitionAt sep (l1 ++ sep :: l2) = some (l1, l2) := by
  induction l1 with
  | nil => simp [partitionAt]
  | cons c cs ih =>
    have hc : ¬ c = sep := fun hc => h (by simp [hc])
    have ih2 := ih (fun hm => h (List.mem_cons_of_mem c hm))
    simp [partitionAt, hc, ih2]

theorem partitionAt_eq_none (sep : Char) (l : List Char) (h : sep ∉ l) :
    partitionAt sep l = none := by
  induction l with
  | nil => rfl
  | cons c cs ih =>
    have hc : ¬ c = sep := fun hc => h (by simp [hc])
    have ih2 := ih (fun hm => h (List.mem_cons_of_mem c hm))
    simp [partitionAt, hc, ih2]

theorem split_branch_append (r b : String) (hrs : '@' ∉ r.data) :
    split_branch (r ++ "@" ++ b) = (r, b) := by
  have hdata : (r ++ "@" ++ b).data = r.data ++ '@' :: b.data := by
    simp [String.data_append]
  simp [split_branch, hdata, partitionAt_append_sep '@' r.data b.data hrs]

theorem split_branch_no_sep (s : String) (hs : '@' ∉ s.data) :
    split_branch s = (s, "") := by
  simp [split_branch, partitionAt_eq_none '@' s.data hs]

theorem Registry.get_set (r : Registry) (pk : Nat) (v : String) :
    (r.set pk v).get pk = some v := by
  simp [Registry.get, Registry.set, List.find?]

theorem Registry.get_del (r : Registry) (pk : Nat) :
    (r.del pk).get pk = none := by
  unfold Registry.get Registry.del
  rw [List.find?_eq_none.mpr]
  intro p hp
  simp only [List.mem_filter] at hp
  simpa using hp.2

theorem Registry.get_eq_none_iff (r : Registry) (pk : Nat) :
    r.get pk = none ↔ List.find? (fun p => p.1 = pk) r = none := by
  unfold Registry.get
  cases List.find? (fun p => p.1 = pk) r <;> simp

/-- A `mount` call on a configuration with no registry entry, against a
mount point that is initially absent and appears at the first poll check:
the mount request is issued and the registry entry recorded. -/
theorem mount_fresh (pk : Nat) (repository : String) (w : Bool) (n : Nat)
    (reg : Registry) (h : reg.get pk = none) :
    mount pk repository w (n + 1) reg (fun t => t != 0) =
      ⟨Except.ok (), reg.set pk (repository_with_branch repository),
       [Event.ensureReady,
        Event.mountReq (split_branch (repository_with_branch repository)).1
          (split_branch (repository_with_branch repository)).2
          (if w then "rw" else "r") (repository_with_branch repository)]⟩ := by
  have hfind : List.find? (fun _ => true) (List.range (n + 1)) = some 0 := by
    rw [List.range_succ_eq_map]
    exact List.find?_cons_of_pos _ rfl
  simp [mount, h, hfind]

/-- A `mount` call whose registry entry already records the desired ref and
whose mount point is physically present returns at once, issuing no remote
mount or unmount request and leaving the registry untouched. -/
theorem mount_already (pk : Nat) (repository : String) (w : Bool) (wait : Nat)
    (reg : Registry) (h : reg.get pk = some (repository_with_branch repository))
    (present : Nat → Bool) (h0 : present 0 = true) :
    mount pk repository w wait reg present = ⟨Except.ok (), reg, [Event.ensureReady]⟩ := by
  simp [mount, h, h0]

/-- Reading back a just-written file yields the written bytes. -/
theorem FS.read_write (fs : FS) (key v : String) :
    (fs.write key v).read key = some v := by
  simp [FS.read, FS.write, List.find?]

theorem not_mem_map_fst_filter_ne (fs : FS) (key : String) :
    key ∉ List.map (fun p => p.1) (List.filter (fun p => p.1 ≠ key) fs) := by
  intro hmem
  simp only [List.mem_map, List.mem_filter] at hmem
  obtain ⟨p, ⟨_, hne⟩, heq⟩ := hmem
  have hne2 : p.1 ≠ key := by simpa using hne
  exact hne2 heq

/-! ### Claim theorems -/

/-- C6 (corrected, counterexample): the claim says that for a string
lacking the `'@'` separator, parse (`split_branch`) yields
`(that string, "master")`; on `"myrepo"` the code instead yields
`("myrepo", "")` — the `"master"` default is applied only later, in
`repository_with_branch`. -/
theorem C6_split_branch_no_default_cex :
    split_branch "myrepo" = ("myrepo", "") ∧
    split_branch "myrepo" ≠ ("myrepo", "master") := by
  decide

/-- C6 (amended): for every `"repo@branch"` string with non-empty,
separator-free components, parsing (`split_branch`) and re-composing the
canonical form (`repository_with_branch`) is the identity; for every
string lacking `'@'`, `split_branch` yields `(that string, "")`, and the
`"master"` default is applied by `repository_with_branch`, which maps such
a string `s` to `s ++ "@" ++ "master"`. -/
theorem C6_parse_compose_amended (r b s : String)
    (_hr : r ≠ "") (hb : b ≠ "") (hrs : '@' ∉ r.data) (_hbs : '@' ∉ b.data)
    (hs : '@' ∉ s.data) :
    repository_with_branch (r ++ "@" ++ b) = r ++ "@" ++ b ∧
    split_branch s = (s, "") ∧
    repository_with_branch s = s ++ "@" ++ "master" := by
  refine ⟨?_, split_branch_no_sep s hs, ?_⟩
  · simp [repository_with_branch, split_branch_append r b hrs, hb]
  · simp [repository_with_branch, split_branch_no_sep s hs]

/-- Witness for `C6_parse_compose_amended` at `r = "myrepo"`, `b = "dev"`,
`s = "plain"`. -/
theorem C6_parse_compose_amended_witness :
    repository_with_branch ("myrepo" ++ "@" ++ "dev") = "myrepo" ++ "@" ++ "dev" ∧
    split_branch "plain" = ("plain", "") ∧
    repository_with_branch "plain" = "plain" ++ "@" ++ "master" :=
  C6_parse_compose_amended "myrepo" "dev" "plain"
    (by decide) (by decide) (by decide) (by decide) (by decide)

/-- C1 (corrected, counterexample): a `mount` call from an empty registry
whose presence poll is exhausted (`wait = 2`, the mount point never
appears) raises `TimeoutError` as the claim says, but the registry is
*not* unchanged: the entry for the configuration was written when the
mount request was issued, before the poll, and survives the failure. -/
theorem C1_registry_entry_left_on_timeout_cex :
    (mount 1 "myrepo@master" false 2 [] (fun _ => false)).result
      = Except.error (PyError.timeoutError "Could not mount repository: myrepo@master") ∧
    (mount 1 "myrepo@master" false 2 [] (fun _ => false)).registry ≠ [] ∧
    (mount 1 "myrepo@master" false 2 [] (fun _ => false)).registry
      = [(1, "myrepo@master")] := by
  refine ⟨rfl, ?_, ?_⟩ <;> decide

/-- C1 (amended): a `mount` call whose physical-presence poll is exhausted
raises the mount-timeout error, and the registry holds an entry for the
configuration recording the requested ref — the entry is written when the
mount request is issued, before polling, and is not rolled back. -/
theorem C1_mount_timeout_amended (pk : Nat) (repository : String) (w : Bool)
    (wait : Nat) (reg : Registry) (present : Nat → Bool)
    (h0 : present 0 = false) (hp : ∀ i, i < wait → present (i + 1) = false) :
    (mount pk repository w wait reg present).result
      = Except.error (PyError.timeoutError
          ("Could not mount repository: " ++ repository_with_branch repository)) ∧
    (mount pk repository w wait reg present).registry.get pk
      = some (repository_with_branch repository) := by
  have hfind : List.find? (fun i => present (i + 1)) (List.range wait) = none := by
    rw [List.find?_eq_none]
    intro i hi
    simp [hp i (List.mem_range.mp hi)]
  constructor <;> simp [mount, h0, hfind, Registry.get_set]

/-- Witness for `C1_mount_timeout_amended` with `wait = 2` and a mount
point that never appears. -/
theorem C1_mount_timeout_amended_witness :
    (mount 1 "myrepo@master" false 2 [] (fun _ => false)).result
      = Except.error (PyError.timeoutError
          ("Could not mount repository: " ++ repository_with_branch "myrepo@master")) ∧
    (mount 1 "myrepo@master" false 2 [] (fun _ => false)).registry.get 1
      = some (repository_with_branch "myrepo@master") :=
  C1_mount_timeout_amended 1 "myrepo@master" false 2 [] (fun _ => false) rfl
    (fun _ _ => rfl)

/-- C2 (code bug): a configuration whose registry entry records
`"myrepo@master"` is edited to target `"myrepo@dev"`.  The next `mount`
call issues exactly one unmount request before the mount request, and that
request carries the previous ref's repo (`"myrepo"`) and branch
(`"master"`) — but its `name` parameter is `"myrepo@dev"`, the *new* ref,
because models.py line 64 passes `name=repository_with_branch` instead of
the previously mounted name; no request naming `"myrepo@master"` is ever
issued, contradicting both the spec and the code's own comment
("unmount the previous repo"). -/
theorem C2_unmount_previous_names_new_ref :
    (mount 1 "myrepo@dev" false 5 [(1, "myrepo@master")] (fun t => t != 0)).events
      = [Event.ensureReady,
         Event.unmountReq "myrepo" "master" "myrepo@dev",
         Event.mountReq "myrepo" "dev" "r" "myrepo@dev"] ∧
    Event.unmountReq "myrepo" "master" "myrepo@master"
      ∉ (mount 1 "myrepo@dev" false 5 [(1, "myrepo@master")] (fun t => t != 0)).events := by
  decide

/-- C3 (confirmed): `save_annotation` against a target whose mount point
is not physically present raises the not-mounted `RuntimeError` before any
write (the filesystem is untouched) and creates no export link; in every
execution the link is created only after the file write succeeded, so a
failed write leaves no link. -/
theorem C3_save_annotation_guard_and_link (repository : String) (m wOk : Bool)
    (fs : FS) (k ser : String) :
    (m = false →
      ( save_annotation repository m wOk fs k ser).result
        = Except.error (PyError.runtimeError
            ("Output repository " ++ repository_with_branch repository ++ " not mounted")) ∧
      ( save_annotation repository m wOk fs k ser).linkCreated = false ∧
      ( save_annotation repository m wOk fs k ser).fs = fs) ∧
    (( save_annotation repository m wOk fs k ser).linkCreated = true →
      m = true ∧ wOk = true ∧
      ( save_annotation repository m wOk fs k ser).result = Except.ok ()) ∧
    (wOk = false → ( save_annotation repository m wOk fs k ser).linkCreated = false) := by
  cases m <;> cases wOk <;> simp [ save_annotation]

/-- Witness for `C3_save_annotation_guard_and_link`: an unmounted target
creates no link, and a mounted target with a failing write creates no
link either. -/
theorem C3_save_annotation_guard_and_link_witness :
    ( save_annotation "myrepo" false true [] "k" "a").linkCreated = false ∧
    ( save_annotation "myrepo" true false [] "k" "a").linkCreated = false :=
  ⟨((C3_save_annotation_guard_and_link "myrepo" false true [] "k" "a").1 rfl).2.1,
   (C3_save_annotation_guard_and_link "myrepo" true false [] "k" "a").2.2 rfl⟩

/-- C4 (corrected, counterexample): an `unmount` call whose remote call
fails (non-2xx) raises at `raise_for_status()` before reaching
`del _mounts[self.pk]`, so the registry entry is *not* removed —
contradicting the claim that the registry holds no entry after every
unmount call whether the remote call succeeded or failed. -/
theorem C4_remote_failure_keeps_entry_cex :
    (unmount 1 "myrepo@master" false [(1, "myrepo@master")]).registry
      = [(1, "myrepo@master")] ∧
    (unmount 1 "myrepo@master" false [(1, "myrepo@master")]).result
      = Except.error PyError.httpError ∧
    (unmount 1 "myrepo@master" false [(1, "myrepo@master")]).events
      = [Event.ensureReady, Event.unmountReq "myrepo" "master" "myrepo@master"] := by
  refine ⟨?_, rfl, ?_⟩ <;> decide

/-- C4 (amended): `unmount` issues the remote unmount call first; when the
remote call succeeds, the configuration has no registry entry afterwards
(the entry is deleted, or `KeyError` is raised on an already-absent
entry); when the remote call fails, the exception propagates before the
deletion and the registry is left exactly as it was. -/
theorem C4_unmount_registry_amended (pk : Nat) (repository : String) (reg : Registry) :
    (unmount pk repository true reg).registry.get pk = none ∧
    (unmount pk repository false reg).registry = reg ∧
    (unmount pk repository false reg).result = Except.error PyError.httpError := by
  refine ⟨?_, by simp [unmount], by simp [unmount]⟩
  cases hg : reg.get pk with
  | some v => simp [unmount, hg, Registry.get_del]
  | none => simp [unmount, hg]

/-- Witness for `C4_unmount_registry_amended` at `pk = 1`, a singleton
registry. -/
theorem C4_unmount_registry_amended_witness :
    (unmount 1 "myrepo@master" true [(1, "myrepo@master")]).registry.get 1 = none ∧
    (unmount 1 "myrepo@master" false [(1, "myrepo@master")]).registry
      = [(1, "myrepo@master")] ∧
    (unmount 1 "myrepo@master" false [(1, "myrepo@master")]).result
      = Except.error PyError.httpError :=
  C4_unmount_registry_amended 1 "myrepo@master" [(1, "myrepo@master")]

/-- C5 (confirmed): `mount` is idempotent. Starting from a configuration
with no registry entry and an absent mount point that appears at the first
poll check, the first call succeeds issuing exactly one mount request; a
second call with the same target ref and no external change (mount point
present, registry entry in place) issues no mount or unmount request, and
exactly one registry entry for the configuration remains. -/
theorem C5_mount_idempotent (pk : Nat) (repository : String) (w : Bool) (n : Nat)
    (reg : Registry) (h : reg.get pk = none) :
    (mount pk repository w (n + 1) reg (fun t => t != 0)).result = Except.ok () ∧
    (mount pk repository w (n + 1)
        (mount pk repository w (n + 1) reg (fun t => t != 0)).registry
        (fun _ => true)).result = Except.ok () ∧
    List.countP Event.isMountReq
      ((mount pk repository w (n + 1) reg (fun t => t != 0)).events ++
       (mount pk repository w (n + 1)
          (mount pk repository w (n + 1) reg (fun t => t != 0)).registry
          (fun _ => true)).events) = 1 ∧
    List.countP Event.isUnmountReq
      ((mount pk repository w (n + 1) reg (fun t => t != 0)).events ++
       (mount pk repository w (n + 1)
          (mount pk repository w (n + 1) reg (fun t => t != 0)).registry
          (fun _ => true)).events) = 0 ∧
    (mount pk repository w (n + 1)
        (mount pk repository w (n + 1) reg (fun t => t != 0)).registry
        (fun _ => true)).registry
      = (mount pk repository w (n + 1) reg (fun t => t != 0)).registry ∧
    (mount pk repository w (n + 1) reg (fun t => t != 0)).registry.get pk
      = some (repository_with_branch repository) ∧
    List.countP (fun p => p.1 = pk)
      (mount pk repository w (n + 1) reg (fun t => t != 0)).registry = 1 := by
  have h1 := mount_fresh pk repository w n reg h
  have hget : (mount pk repository w (n + 1) reg (fun t => t != 0)).registry.get pk
      = some (repository_with_branch repository) := by
    rw [h1]; exact Registry.get_set reg pk _
  have h2 := mount_already pk repository w (n + 1)
      (mount pk repository w (n + 1) reg (fun t => t != 0)).registry hget
      (fun _ => true) rfl
  have hcount : List.countP (fun p => p.1 = pk)
      (reg.set pk (repository_with_branch repository)) = 1 := by
    unfold Registry.set
    rw [List.countP_cons_of_pos _ _ (by simp)]
    rw [List.countP_eq_zero.mpr]
    intro p hp
    have := (List.mem_filter.mp hp).2
    simpa using this
  rw [h2, h1]
  refine ⟨rfl, rfl, ?_, ?_, rfl, Registry.get_set reg pk _, hcount⟩ <;>
    cases w <;> simp [Event.isMountReq, Event.isUnmountReq]

/-- Witness for `C5_mount_idempotent` at `pk = 1`,
`repository = "myrepo@master"`, `wait = 3`, empty registry. -/
theorem C5_mount_idempotent_witness :
    (mount 1 "myrepo@master" false 3 [] (fun t => t != 0)).result = Except.ok () ∧
    (mount 1 "myrepo@master" false 3
        (mount 1 "myrepo@master" false 3 [] (fun t => t != 0)).registry
        (fun _ => true)).result = Except.ok () ∧
    List.countP Event.isMountReq
      ((mount 1 "myrepo@master" false 3 [] (fun t => t != 0)).events ++
       (mount 1 "myrepo@master" false 3
          (mount 1 "myrepo@master" false 3 [] (fun t => t != 0)).registry
          (fun _ => true)).events) = 1 ∧
    List.countP Event.isUnmountReq
      ((mount 1 "myrepo@master" false 3 [] (fun t => t != 0)).events ++
       (mount 1 "myrepo@master" false 3
          (mount 1 "myrepo@master" false 3 [] (fun t => t != 0)).registry
          (fun _ => true)).events) = 0 ∧
    (mount 1 "myrepo@master" false 3
        (mount 1 "myrepo@master" false 3 [] (fun t => t != 0)).registry
        (fun _ => true)).registry
      = (mount 1 "myrepo@master" false 3 [] (fun t => t != 0)).registry ∧
    (mount 1 "myrepo@master" false 3 [] (fun t => t != 0)).registry.get 1
      = some (repository_with_branch "myrepo@master") ∧
    List.countP (fun p => p.1 = 1)
      (mount 1 "myrepo@master" false 3 [] (fun t => t != 0)).registry = 1 :=
  C5_mount_idempotent 1 "myrepo@master" false 2 [] rfl

/-- C7 (confirmed): `safe_start_mount_server` returns without spawning the
helper when the initial probe succeeds; when the initial probe fails it
spawns the helper exactly once and re-polls, returning on the first
success within the wait bound, and raises the supervisor `TimeoutError`
when every poll within the bound fails. -/
theorem C7_safe_start_mount_server_spec (wait : Nat) (probeOk : Nat → Bool) :
    (probeOk 0 = true →
      safe_start_mount_server wait probeOk = (Except.ok (), 0)) ∧
    (probeOk 0 = false →
      (safe_start_mount_server wait probeOk).2 = 1 ∧
      ((∃ i, i < wait ∧ probeOk (i + 1) = true) →
        (safe_start_mount_server wait probeOk).1 = Except.ok ()) ∧
      ((∀ i, i < wait → probeOk (i + 1) = false) →
        (safe_start_mount_server wait probeOk).1
          = Except.error (PyError.timeoutError "Failed to start pachctl mount-server"))) := by
  refine ⟨fun h0 => by simp [safe_start_mount_server, h0], fun h0 => ⟨?_, ?_, ?_⟩⟩
  · cases hf : List.find? (fun i => probeOk (i + 1)) (List.range wait) <;>
      simp [safe_start_mount_server, h0, hf]
  · rintro ⟨i, hi, hp⟩
    cases hf : List.find? (fun i => probeOk (i + 1)) (List.range wait) with
    | some x => simp [safe_start_mount_server, h0, hf]
    | none =>
      rw [List.find?_eq_none] at hf
      exact absurd hp (by simpa using hf i (List.mem_range.mpr hi))
  · intro hall
    have hf : List.find? (fun i => probeOk (i + 1)) (List.range wait) = none := by
      rw [List.find?_eq_none]
      intro i hi
      simp [hall i (List.mem_range.mp hi)]
    simp [safe_start_mount_server, h0, hf]

/-- Witness for `C7_safe_start_mount_server_spec`: the probe fails twice
(calls 0 and 1) then succeeds on the third attempt (call 2) within
`wait = 5` — no error and exactly one spawn; and the no-spawn case on an
initially reachable helper. -/
theorem C7_safe_start_mount_server_spec_witness :
    (safe_start_mount_server 5 (fun nc => decide (2 ≤ nc))).2 = 1 ∧
    (safe_start_mount_server 5 (fun nc => decide (2 ≤ nc))).1 = Except.ok () ∧
    safe_start_mount_server 5 (fun _ => true) = (Except.ok (), 0) :=
  ⟨((C7_safe_start_mount_server_spec 5 (fun nc => decide (2 ≤ nc))).2 rfl).1,
   ((C7_safe_start_mount_server_spec 5 (fun nc => decide (2 ≤ nc))).2 rfl).2.1
     ⟨1, by decide, rfl⟩,
   (C7_safe_start_mount_server_spec 5 (fun _ => true)).1 rfl⟩

/-- C8 (confirmed): on a blob-oriented configuration `get_data` returns a
URL descriptor whose value does not depend on the file's content (no read
or parse); on a JSON-task configuration it raises `ValueError` when the
bytes are not valid JSON, raises `ValueError` when the parsed value is not
a JSON object, and returns the parsed object otherwise. -/
theorem C8_get_data_spec (hostname key : String) (c c2 : FileContent)
    (fields : List (String × Json)) :
    get_data true hostname key c = get_data true hostname key c2 ∧
    (List.isPrefixOf "/pfs/".data key.data = true →
      get_data true hostname key c
        = Except.ok (TaskData.blobUrl
            (hostname ++ "/data/pfs/?d=" ++ String.mk (List.drop 5 key.data)))) ∧
    get_data false hostname key FileContent.invalid
      = Except.error (PyError.valueError
          ("Can not import JSON-formatted tasks from " ++ key)) ∧
    get_data false hostname key (FileContent.decodable (Json.obj fields))
      = Except.ok (TaskData.parsed (Json.obj fields)) ∧
    (∀ j : Json, j.isObj = false →
      get_data false hostname key (FileContent.decodable j)
        = Except.error (PyError.valueError
            ("Error on key " ++ key ++ ": your JSON file must be a dictionary with one task."))) := by
  refine ⟨rfl, ?_, rfl, rfl, ?_⟩
  · intro hpre
    simp [get_data, relative_to_pfs, hpre]
  · intro j hj
    cases j <;> simp_all [get_data, Json.isObj]

/-- Witness for `C8_get_data_spec` at a key under `/pfs` and at the
non-object JSON value `null`. -/
theorem C8_get_data_spec_witness :
    get_data true "http://h" "/pfs/myrepo@master/a.json" FileContent.invalid
      = Except.ok (TaskData.blobUrl ("http://h" ++ "/data/pfs/?d=" ++
          String.mk (List.drop 5 "/pfs/myrepo@master/a.json".data))) ∧
    get_data false "http://h" "k" (FileContent.decodable Json.null)
      = Except.error (PyError.valueError
          ("Error on key " ++ "k" ++ ": your JSON file must be a dictionary with one task.")) :=
  ⟨(C8_get_data_spec "http://h" "/pfs/myrepo@master/a.json"
      FileContent.invalid FileContent.invalid []).2.1 (by decide),
   (C8_get_data_spec "http://h" "k"
      FileContent.invalid FileContent.invalid []).2.2.2.2 Json.null rfl⟩

/-- C9 (confirmed): writing an annotation through `save_annotation` into a
mounted view and then enumerating keys with `iterkeys` yields the written
key exactly once, and reading back the bytes stored at that key reproduces
the serialized annotation byte-for-byte. -/
theorem C9_export_import_roundtrip (repository : String) (fs : FS) (k ser : String) :
    ( save_annotation repository true true fs k ser).result = Except.ok () ∧
    List.count (export_key repository k)
      (iterkeys repository ( save_annotation repository true true fs k ser).fs) = 1 ∧
    (( save_annotation repository true true fs k ser).fs).read (export_key repository k)
      = some ser := by
  have hsa : save_annotation repository true true fs k ser
      = ⟨Except.ok (), fs.write (export_key repository k) ser, true⟩ := by
    simp [ save_annotation]
  rw [hsa]
  refine ⟨rfl, ?_, FS.read_write fs (export_key repository k) ser⟩
  have hpre : List.isPrefixOf (mount_point repository ++ "/").data
      (export_key repository k).data = true := by
    rw [List.isPrefixOf_iff_prefix]
    have : (export_key repository k).data
        = (mount_point repository ++ "/").data ++ (k.data ++ ".json".data) := by
      simp [export_key, String.data_append]
    rw [this]
    exact List.prefix_append _ _
  unfold iterkeys FS.write
  have hfst : ((export_key repository k, ser).1) = export_key repository k := rfl
  rw [List.map_cons, hfst, List.filter_cons_of_pos (by simpa using hpre),
    List.count_cons_self]
  rw [List.count_eq_zero.mpr, Nat.zero_add]
  intro hmem
  exact not_mem_map_fst_filter_ne fs (export_key repository k)
    (List.mem_of_mem_filter hmem)

/-- Witness for `C9_export_import_roundtrip` at a concrete filesystem
holding one unrelated file. -/
theorem C9_export_import_roundtrip_witness :
    ( save_annotation "myrepo" true true [("/pfs/other@master/x", "z")] "7" "bytes").result
      = Except.ok () ∧
    List.count (export_key "myrepo" "7")
      (iterkeys "myrepo"
        ( save_annotation "myrepo" true true [("/pfs/other@master/x", "z")] "7" "bytes").fs) = 1 ∧
    (( save_annotation "myrepo" true true [("/pfs/other@master/x", "z")] "7" "bytes").fs).read
        (export_key "myrepo" "7") = some "bytes" :=
  C9_export_import_roundtrip "myrepo" [("/pfs/other@master/x", "z")] "7" "bytes"

/-- C10 (confirmed): calling `unmount` on a configuration with no registry
entry is a hard error, not a no-op — the remote unmount request is issued
first (so its side-effect occurs even though the call fails), and the call
then raises `KeyError` at `del _mounts[self.pk]`, leaving the registry as
it was. -/
theorem C10_unmount_missing_entry (pk : Nat) (repository : String)
    (reg : Registry) (h : reg.get pk = none) :
    (unmount pk repository true reg).result = Except.error PyError.keyError ∧
    (unmount pk repository true reg).events
      = [Event.ensureReady,
         Event.unmountReq (split_branch (repository_with_branch repository)).1
           (split_branch (repository_with_branch repository)).2
           (repository_with_branch repository)] ∧
    (unmount pk repository true reg).registry = reg := by
  simp [unmount, h]

/-- Witness for `C10_unmount_missing_entry` at an empty registry. -/
theorem C10_unmount_missing_entry_witness :
    (unmount 1 "myrepo@master" true []).result = Except.error PyError.keyError ∧
    (unmount 1 "myrepo@master" true []).events
      = [Event.ensureReady,
         Event.unmountReq (split_branch (repository_with_branch "myrepo@master")).1
           (split_branch (repository_with_branch "myrepo@master")).2
           (repository_with_branch "myrepo@master")] ∧
    (unmount 1 "myrepo@master" true []).registry = [] :=
  C10_unmount_missing_entry 1 "myrepo@master" [] rfl

end Pachyderm
